import Mathlib

/-
  Shallow embedding of src/Button/Button.c (ESP32Forge/Button), a debounced
  button driver for ESP32.  The mutable module state (the flag
  button_module_was_initialized and the array system_buttons_infos) is made
  explicit as a ModuleState record; external collaborators (GPIO driver,
  interrupt-dispatch service, FreeRTOS timers) are modelled by an HwEnv record
  of call outcomes and pin levels.  The closed button enumeration and the
  configuration table live in Button_physical_connection.h, which is not part
  of src/: following the spec, identifiers are dense (0 .. NUM_OF_BUTTONS-1)
  and the table has one entry per button.
-/

/-- Return codes of the module, Button.h BUTTON_RETURNS list. -/
inductive Button_return where
  | BSP_BUTTON_OK
  | BSP_BUTTON_INIT_ERR
  | BSP_BUTTON_DE_INIT_ERR
  | BSP_BUTTON_INVALID_BUTTONS_CONFIG_ERR
  | BSP_BUTTON_MODULE_WAS_NOT_INIT_ERR
  | BSP_BUTTON_DOES_NOT_EXIST_ERR
  | BSP_BUTTON_WAS_INITIALIZED_ERR
  | BSP_BUTTON_WAS_NOT_INITIALIZED_ERR
deriving DecidableEq

/-- Logical level of a button.  Modelled from the spec: the concrete values
come from the absent Button_physical_connection.h; the zero value is the
not-pressed one, which is what the static table stores at creation. -/
inductive Button_state where
  | BUTTON_IS_NOT_PRESSED
  | BUTTON_IS_PRESSED
deriving DecidableEq

def GPIO_PULLUP_ONLY : Nat := 0

def GPIO_PULLDOWN_ONLY : Nat := 1

def GPIO_PULLUP_PULLDOWN : Nat := 2

def GPIO_FLOATING : Nat := 3

/-- One entry of system_buttons_infos (struct system_button_info, Button.c).
The FreeRTOS TimerHandle_t debounce field is modelled by its observable
parts: the timer name (used by timer_CB for identification), whether the
handle is non-NULL (created), and whether the timer is currently active. -/
structure system_button_info where
  ID : Nat
  was_initialized : Bool
  GPIO_num : Nat
  pull_mode : Nat
  interruption_type : Nat
  state : Button_state
  debounce_name : String
  debounce_created : Bool
  debounce_active : Bool
  debounce_timer_expired : Bool
  num_of_presses : Nat
deriving DecidableEq

/-- The all-zero entry, i.e. the C initializer \x7b0u\x7d used for the local
buttons_info array in check_configurations_sort_and_init. -/
def zeroed_button_info : system_button_info where
  ID := 0
  was_initialized := false
  GPIO_num := 0
  pull_mode := 0
  interruption_type := 0
  state := Button_state.BUTTON_IS_NOT_PRESSED
  debounce_name := ""
  debounce_created := false
  debounce_active := false
  debounce_timer_expired := false
  num_of_presses := 0

/-- The mutable globals of Button.c.  NUM_OF_BUTTONS is carried along so the
definitions stay parametric in the size of the closed enumeration. -/
structure ModuleState where
  button_module_was_initialized : Bool
  NUM_OF_BUTTONS : Nat
  system_buttons_infos : Nat → system_button_info

/-- Outcomes of the external collaborators: per-pin success of each GPIO
call, success of installing the ISR service, validity of a pin
(GPIO_IS_VALID_GPIO), per-button success of xTimerCreate, and the level
gpio_get_level reads on each pin at the moment of the event. -/
structure HwEnv where
  reset_ok : Nat → Bool
  set_dir_ok : Nat → Bool
  set_pull_ok : Nat → Bool
  set_intr_ok : Nat → Bool
  isr_add_ok : Nat → Bool
  isr_service_ok : Bool
  valid_gpio : Nat → Bool
  timer_create_ok : Nat → Bool
  level : Nat → Button_state

/-- check_button_ID, Button.c lines 364-375: a switch over the members of
the BUTTONS list returning true exactly on members.  Modelled from the spec:
the enumeration of Button_physical_connection.h is closed and dense, so
membership is ID < NUM_OF_BUTTONS. -/
def check_button_ID (N : Nat) (ID : Nat) : Bool :=
  decide (ID < N)

/-- The pull-mode switch in check_configurations_sort_and_init: the four
recognized policies pass, everything else fails. -/
def valid_pull_mode (pm : Nat) : Bool :=
  pm == GPIO_PULLUP_ONLY || pm == GPIO_PULLDOWN_ONLY ||
  pm == GPIO_PULLUP_PULLDOWN || pm == GPIO_FLOATING

/-- The per-entry checks of the first loop of check_configurations_sort_and_init:
valid identifier, valid GPIO, valid pull mode. -/
def entry_config_ok (env : HwEnv) (N : Nat) (b : system_button_info) : Bool :=
  check_button_ID N b.ID && env.valid_gpio b.GPIO_num && valid_pull_mode b.pull_mode

/-- One iteration of the first loop of check_configurations_sort_and_init:
validate entry i and place it at index (infos i).ID of the local array
(none on validation failure). -/
def sort_step (env : HwEnv) (N : Nat) (infos : Nat → system_button_info)
    (acc : Option (Nat → system_button_info)) (i : Nat) :
    Option (Nat → system_button_info) :=
  acc.bind fun arr =>
    if entry_config_ok env N (infos i) = true then
      some (Function.update arr (infos i).ID (infos i))
    else
      none

/-- The first loop of check_configurations_sort_and_init: validate every
entry and sort it into the local buttons_info array (initialized all-zero). -/
def sort_pass (env : HwEnv) (N : Nat) (infos : Nat → system_button_info) :
    Option (Nat → system_button_info) :=
  (List.range N).foldl (sort_step env N infos) (some fun _ => zeroed_button_info)

/-- The BUTTON_IDs declared by the BUTTONS_CONFIGURATIONS entries, which are
the case labels of the switch in the second loop. -/
def declared_IDs (N : Nat) (infos : Nat → system_button_info) : List Nat :=
  (List.range N).map fun k => (infos k).ID

/-- The entry at index i after xTimerCreate succeeded for button i: the
debounce handle is non-NULL, inactive, and its name is the stringized
BUTTON_ID of case i. -/
def timer_entry (nameOf : Nat → String) (b : system_button_info) (i : Nat) :
    system_button_info :=
  { b with debounce_name := nameOf i, debounce_created := true,
           debounce_active := false }

/-- The second loop of check_configurations_sort_and_init: copy the sorted
local array back into the global one and create the debounce timer of each
index through the switch over declared BUTTON_IDs; an index outside the
declared labels hits the defensive default case and fails, as does a NULL
result of xTimerCreate.  On failure the partially copied global array is
kept, as in the C code (early return from the loop). -/
def copy_and_create (env : HwEnv) (nameOf : Nat → String) (declared : List Nat)
    (arr : Nat → system_button_info) :
    List Nat → (Nat → system_button_info) → Bool × (Nat → system_button_info)
  | [], g => (true, g)
  | i :: rest, g =>
    if declared.contains i then
      if env.timer_create_ok i then
        copy_and_create env nameOf declared arr rest
          (Function.update (Function.update g i (arr i)) i
            (timer_entry nameOf (arr i) i))
      else
        (false, Function.update g i (arr i))
    else
      (false, Function.update g i (arr i))

/-- check_configurations_sort_and_init, Button.c lines 295-362: validate the
whole table, sort it so position equals identifier, and create the per-button
debounce timers.  Returns the C function result and the resulting globals. -/
def check_configurations_sort_and_init (env : HwEnv) (nameOf : Nat → String)
    (st : ModuleState) : Bool × ModuleState :=
  match sort_pass env st.NUM_OF_BUTTONS st.system_buttons_infos with
  | none => (false, st)
  | some arr =>
    let r := copy_and_create env nameOf
               (declared_IDs st.NUM_OF_BUTTONS st.system_buttons_infos) arr
               (List.range st.NUM_OF_BUTTONS) st.system_buttons_infos
    (r.1, { st with system_buttons_infos := r.2 })

/-- init_BSP_button_module, Button.c lines 137-157. -/
def init_BSP_button_module (env : HwEnv) (nameOf : Nat → String)
    (st : ModuleState) : Button_return × ModuleState :=
  if st.button_module_was_initialized = false then
    let r := check_configurations_sort_and_init env nameOf st
    if r.1 = false then
      (Button_return.BSP_BUTTON_INVALID_BUTTONS_CONFIG_ERR, r.2)
    else if env.isr_service_ok = false then
      (Button_return.BSP_BUTTON_INIT_ERR, r.2)
    else
      (Button_return.BSP_BUTTON_OK,
       { r.2 with button_module_was_initialized := true })
  else
    (Button_return.BSP_BUTTON_OK, st)

/-- init_button, Button.c lines 159-203. -/
def init_button (env : HwEnv) (st : ModuleState) (ID : Nat) :
    Button_return × ModuleState :=
  if st.button_module_was_initialized = false then
    (Button_return.BSP_BUTTON_MODULE_WAS_NOT_INIT_ERR, st)
  else if check_button_ID st.NUM_OF_BUTTONS ID = false then
    (Button_return.BSP_BUTTON_DOES_NOT_EXIST_ERR, st)
  else if (st.system_buttons_infos ID).was_initialized = true then
    (Button_return.BSP_BUTTON_WAS_INITIALIZED_ERR, st)
  else if env.reset_ok (st.system_buttons_infos ID).GPIO_num = false then
    (Button_return.BSP_BUTTON_INIT_ERR, st)
  else if env.set_dir_ok (st.system_buttons_infos ID).GPIO_num = false then
    (Button_return.BSP_BUTTON_INIT_ERR, st)
  else if env.set_pull_ok (st.system_buttons_infos ID).GPIO_num = false then
    (Button_return.BSP_BUTTON_INIT_ERR, st)
  else if (env.set_intr_ok (st.system_buttons_infos ID).GPIO_num = false) ||
          (env.isr_add_ok (st.system_buttons_infos ID).GPIO_num = false) then
    (Button_return.BSP_BUTTON_INIT_ERR, st)
  else
    (Button_return.BSP_BUTTON_OK,
     { st with system_buttons_infos :=
                 Function.update st.system_buttons_infos ID
                   ({ st.system_buttons_infos ID with
                        was_initialized := true,
                        debounce_timer_expired := true }) })

/-- de_init_button, Button.c lines 205-232.  Note that on the success path it
performs the two GPIO calls and returns OK without writing any field of
system_buttons_infos. -/
def de_init_button (env : HwEnv) (st : ModuleState) (ID : Nat) :
    Button_return × ModuleState :=
  if st.button_module_was_initialized = false then
    (Button_return.BSP_BUTTON_MODULE_WAS_NOT_INIT_ERR, st)
  else if check_button_ID st.NUM_OF_BUTTONS ID = false then
    (Button_return.BSP_BUTTON_DOES_NOT_EXIST_ERR, st)
  else if (st.system_buttons_infos ID).was_initialized = false then
    (Button_return.BSP_BUTTON_WAS_NOT_INITIALIZED_ERR, st)
  else if env.reset_ok (st.system_buttons_infos ID).GPIO_num = false then
    (Button_return.BSP_BUTTON_DE_INIT_ERR, st)
  else if env.set_intr_ok (st.system_buttons_infos ID).GPIO_num = false then
    (Button_return.BSP_BUTTON_DE_INIT_ERR, st)
  else
    (Button_return.BSP_BUTTON_OK, st)

/-- read_button_state, Button.c lines 234-252.  The second component models
the out parameter: none when nothing is written through it. -/
def read_button_state (st : ModuleState) (ID : Nat) :
    Button_return × Option Button_state :=
  if st.button_module_was_initialized = false then
    (Button_return.BSP_BUTTON_MODULE_WAS_NOT_INIT_ERR, none)
  else if check_button_ID st.NUM_OF_BUTTONS ID = false then
    (Button_return.BSP_BUTTON_DOES_NOT_EXIST_ERR, none)
  else if (st.system_buttons_infos ID).was_initialized = false then
    (Button_return.BSP_BUTTON_WAS_NOT_INITIALIZED_ERR, none)
  else
    (Button_return.BSP_BUTTON_OK, some (st.system_buttons_infos ID).state)

/-- get_num_of_presses, Button.c lines 254-267.  There is no
was_initialized check: the counter is readable on any existing button. -/
def get_num_of_presses (st : ModuleState) (ID : Nat) :
    Button_return × Option Nat :=
  if st.button_module_was_initialized = false then
    (Button_return.BSP_BUTTON_MODULE_WAS_NOT_INIT_ERR, none)
  else if check_button_ID st.NUM_OF_BUTTONS ID = false then
    (Button_return.BSP_BUTTON_DOES_NOT_EXIST_ERR, none)
  else
    (Button_return.BSP_BUTTON_OK,
     some (st.system_buttons_infos ID).num_of_presses)

/-- generic_button_CB, Button.c lines 377-401, the edge-interrupt handler of
button ID.  The boolean result records whether the press callback
button_CB(ID) was invoked on this edge.  An accepted edge clears the
expired flag, samples the level, bumps the counter, invokes the callback,
and starts the debounce timer (xTimerStartFromISR makes it active). -/
def generic_button_CB (env : HwEnv) (st : ModuleState) (ID : Nat) :
    ModuleState × Bool :=
  let b := st.system_buttons_infos ID
  if !b.debounce_active && b.debounce_timer_expired then
    ({ st with system_buttons_infos :=
                 Function.update st.system_buttons_infos ID
                   ({ b with debounce_timer_expired := false,
                             state := env.level b.GPIO_num,
                             num_of_presses := b.num_of_presses + 1,
                             debounce_active := true }) },
     true)
  else
    (st, false)

/-- A burst of n edge interrupts on the pin of button ID, with no timer
expiry in between (all edges fall inside one debounce window).  The second
component counts how many of them invoked the press callback. -/
def edge_burst (env : HwEnv) (ID : Nat) : Nat → ModuleState → ModuleState × Nat
  | 0, st => (st, 0)
  | Nat.succ n, st =>
    let r := generic_button_CB env st ID
    let rest := edge_burst env ID n r.1
    (rest.1, (if r.2 then 1 else 0) + rest.2)

/-- The name-matching chain of timer_CB: one strcmp per member of the
BUTTONS list, each match overwriting ID, starting from ID = 0. -/
def resolve_timer_ID (nameOf : Nat → String) (N : Nat) (timer_name : String) :
    Nat :=
  (List.range N).foldl (fun ID i => if timer_name = nameOf i then i else ID) 0

/-- timer_CB, Button.c lines 403-434, the settle checker run at timer
expiry.  It identifies the button by comparing the timer name against the
stringized members of the closed enumeration (nameOf, modelled from the
spec since Button_physical_connection.h is absent), then either restarts
the debounce timer of that button (still pressed) or marks its debounce
timer expired (released). -/
def timer_CB (env : HwEnv) (nameOf : Nat → String) (st : ModuleState)
    (timer_name : String) : ModuleState :=
  let ID := resolve_timer_ID nameOf st.NUM_OF_BUTTONS timer_name
  let b := st.system_buttons_infos ID
  if env.level b.GPIO_num = Button_state.BUTTON_IS_PRESSED then
    { st with system_buttons_infos :=
                Function.update st.system_buttons_infos ID
                  ({ b with debounce_active := true }) }
  else
    { st with system_buttons_infos :=
                Function.update st.system_buttons_infos ID
                  ({ b with debounce_timer_expired := true }) }

/-- Overwrite only the debounce_active flag of button ID. -/
def set_timer_active (st : ModuleState) (ID : Nat) (a : Bool) : ModuleState :=
  { st with system_buttons_infos :=
              Function.update st.system_buttons_infos ID
                ({ st.system_buttons_infos ID with debounce_active := a }) }

/-- Expiry of the one-shot debounce timer of button fired: the FreeRTOS
timer becomes inactive (one-shot, auto-reload pdFALSE) and timer_CB runs
with that timer handle, whose name is the stored debounce_name. -/
def timer_expiry_event (env : HwEnv) (nameOf : Nat → String) (st : ModuleState)
    (fired : Nat) : ModuleState :=
  timer_CB env nameOf (set_timer_active st fired false)
    ((st.system_buttons_infos fired).debounce_name)

/-
  Concrete instances used by the witnesses: a one-button system whose
  single descriptor binds button 0 to GPIO 4 with pull-up and a
  positive-edge interrupt, together with an environment in which every
  collaborator call succeeds.
-/

/-- Timer names as produced by the preprocessor: the stringized enumerator. -/
def demo_names : Nat → String := fun i => "BUTTON_" ++ toString i

/-- An environment where every collaborator call succeeds and every pin
below 40 is a valid GPIO; every pin currently reads not-pressed. -/
def demo_env : HwEnv where
  reset_ok := fun _ => true
  set_dir_ok := fun _ => true
  set_pull_ok := fun _ => true
  set_intr_ok := fun _ => true
  isr_add_ok := fun _ => true
  isr_service_ok := true
  valid_gpio := fun g => decide (g < 40)
  timer_create_ok := fun _ => true
  level := fun _ => Button_state.BUTTON_IS_NOT_PRESSED

/-- The macro-generated table entry of the single demo button. -/
def demo_info0 : system_button_info where
  ID := 0
  was_initialized := false
  GPIO_num := 4
  pull_mode := GPIO_PULLUP_ONLY
  interruption_type := 1
  state := Button_state.BUTTON_IS_NOT_PRESSED
  debounce_name := ""
  debounce_created := false
  debounce_active := false
  debounce_timer_expired := false
  num_of_presses := 0

/-- The demo system before init_BSP_button_module ran. -/
def demo_state0 : ModuleState where
  button_module_was_initialized := false
  NUM_OF_BUTTONS := 1
  system_buttons_infos := fun _ => demo_info0

/-- The demo system after a successful init_BSP_button_module, before any
button is registered. -/
def demo_state_ready : ModuleState where
  button_module_was_initialized := true
  NUM_OF_BUTTONS := 1
  system_buttons_infos := fun _ =>
    { demo_info0 with debounce_name := "BUTTON_0", debounce_created := true }

/-- C6: for every valid identifier, init_button followed immediately by a
second init_button on the same identifier yields
BSP_BUTTON_WAS_INITIALIZED_ERR, and the registry state is unchanged by the
rejected second call (the returned state is exactly the input state, and
no GPIO call of the second environment is consulted). -/
theorem init_button_twice_was_initialized_err
    (env env2 : HwEnv) (st st1 : ModuleState) (ID : Nat)
    (h : init_button env st ID = (Button_return.BSP_BUTTON_OK, st1)) :
    init_button env2 st1 ID =
      (Button_return.BSP_BUTTON_WAS_INITIALIZED_ERR, st1) := by
  unfold init_button at h
  split at h
  · simp_all
  · split at h
    · simp_all
    · split at h
      · simp_all
      · split at h
        · simp_all
        · split at h
          · simp_all
          · split at h
            · simp_all
            · split at h
              · simp_all
              · rename_i h1 h2 h3 h4 h5 h6 h7
                have hst1 : st1 =
                    { st with system_buttons_infos :=
                                Function.update st.system_buttons_infos ID
                                  ({ st.system_buttons_infos ID with
                                       was_initialized := true,
                                       debounce_timer_expired := true }) } := by
                  have := congrArg Prod.snd h
                  simpa using this.symm
                subst hst1
                simp [init_button, h1, h2, Function.update_same]

/-- Witness for C6 on the concrete one-button system. -/
theorem init_button_twice_was_initialized_err_witness :
    init_button demo_env (init_button demo_env demo_state_ready 0).2 0 =
      (Button_return.BSP_BUTTON_WAS_INITIALIZED_ERR,
       (init_button demo_env demo_state_ready 0).2) :=
  init_button_twice_was_initialized_err demo_env demo_env demo_state_ready
    (init_button demo_env demo_state_ready 0).2 0 rfl

/-- C7: after module initialization, every identifier-taking operation on an
identifier outside the closed enumeration returns
BSP_BUTTON_DOES_NOT_EXIST_ERR, leaves the state unchanged, and writes
nothing through the out parameters. -/
theorem invalid_ID_uniformly_does_not_exist
    (env : HwEnv) (st : ModuleState) (ID : Nat)
    (hmod : st.button_module_was_initialized = true)
    (hID : ¬ ID < st.NUM_OF_BUTTONS) :
    init_button env st ID = (Button_return.BSP_BUTTON_DOES_NOT_EXIST_ERR, st) ∧
    de_init_button env st ID =
      (Button_return.BSP_BUTTON_DOES_NOT_EXIST_ERR, st) ∧
    read_button_state st ID =
      (Button_return.BSP_BUTTON_DOES_NOT_EXIST_ERR, none) ∧
    get_num_of_presses st ID =
      (Button_return.BSP_BUTTON_DOES_NOT_EXIST_ERR, none) := by
  simp [init_button, de_init_button, read_button_state, get_num_of_presses,
        check_button_ID, hmod, hID]

/-- Witness for C7: identifier 5 on the one-button system. -/
theorem invalid_ID_uniformly_does_not_exist_witness :
    init_button demo_env demo_state_ready 5 =
      (Button_return.BSP_BUTTON_DOES_NOT_EXIST_ERR, demo_state_ready) ∧
    de_init_button demo_env demo_state_ready 5 =
      (Button_return.BSP_BUTTON_DOES_NOT_EXIST_ERR, demo_state_ready) ∧
    read_button_state demo_state_ready 5 =
      (Button_return.BSP_BUTTON_DOES_NOT_EXIST_ERR, none) ∧
    get_num_of_presses demo_state_ready 5 =
      (Button_return.BSP_BUTTON_DOES_NOT_EXIST_ERR, none) :=
  invalid_ID_uniformly_does_not_exist demo_env demo_state_ready 5 rfl
    (by decide)

/-- C9: init_BSP_button_module is idempotent, and every other operation is
gated on it.  Once the module flag is set, a further call returns OK with
the state unchanged, for every environment (so the configuration table is
not re-validated and the ISR service is not re-installed: the result does
not depend on their outcomes); before the first successful call every
other operation returns BSP_BUTTON_MODULE_WAS_NOT_INIT_ERR and changes
nothing. -/
theorem module_init_idempotent_and_gating
    (env : HwEnv) (nameOf : Nat → String) (st : ModuleState) :
    (st.button_module_was_initialized = true →
      init_BSP_button_module env nameOf st = (Button_return.BSP_BUTTON_OK, st)) ∧
    (st.button_module_was_initialized = false →
      (∀ ID, init_button env st ID =
        (Button_return.BSP_BUTTON_MODULE_WAS_NOT_INIT_ERR, st)) ∧
      (∀ ID, de_init_button env st ID =
        (Button_return.BSP_BUTTON_MODULE_WAS_NOT_INIT_ERR, st)) ∧
      (∀ ID, read_button_state st ID =
        (Button_return.BSP_BUTTON_MODULE_WAS_NOT_INIT_ERR, none)) ∧
      (∀ ID, get_num_of_presses st ID =
        (Button_return.BSP_BUTTON_MODULE_WAS_NOT_INIT_ERR, none))) := by
  constructor
  · intro h
    simp [init_BSP_button_module, h]
  · intro h
    refine ⟨?_, ?_, ?_, ?_⟩ <;> intro ID <;>
      simp [init_button, de_init_button, read_button_state,
            get_num_of_presses, h]

/-- Witness for C9: a second module init on the ready demo system is a
no-op returning OK, and init_button before module init is rejected. -/
theorem module_init_idempotent_and_gating_witness :
    init_BSP_button_module demo_env demo_names demo_state_ready =
      (Button_return.BSP_BUTTON_OK, demo_state_ready) ∧
    init_button demo_env demo_state0 0 =
      (Button_return.BSP_BUTTON_MODULE_WAS_NOT_INIT_ERR, demo_state0) :=
  ⟨(module_init_idempotent_and_gating demo_env demo_names demo_state_ready).1
      rfl,
   ((module_init_idempotent_and_gating demo_env demo_names demo_state0).2
      rfl).1 0⟩

/-- While the debounce timer of button ID is active, edge interrupts are
no-ops: any burst of them leaves the state unchanged and invokes the press
callback zero times (the anti-bouncing guard of generic_button_CB). -/
theorem edge_burst_noop (env : HwEnv) (ID : Nat) (n : Nat) (st : ModuleState)
    (h : (st.system_buttons_infos ID).debounce_active = true) :
    edge_burst env ID n st = (st, 0) := by
  induction n generalizing st with
  | zero => rfl
  | succ n ih =>
    have hcb : generic_button_CB env st ID = (st, false) := by
      simp [generic_button_CB, h]
    simp [edge_burst, hcb, ih st h]

/-- C3: on a registered button in its quiescent ready phase (timer inactive,
expired flag set), a burst of n >= 1 edge interrupts that all fall inside
one debounce window increments the press counter by exactly 1 and invokes
the press callback exactly once; only the first edge mutates the state. -/
theorem edge_burst_counts_single_press
    (env : HwEnv) (st : ModuleState) (ID : Nat) (n : Nat)
    (hn : 1 ≤ n)
    (_hreg : (st.system_buttons_infos ID).was_initialized = true)
    (hact : (st.system_buttons_infos ID).debounce_active = false)
    (hexp : (st.system_buttons_infos ID).debounce_timer_expired = true) :
    (edge_burst env ID n st).2 = 1 ∧
    (((edge_burst env ID n st).1).system_buttons_infos ID).num_of_presses =
      (st.system_buttons_infos ID).num_of_presses + 1 ∧
    (edge_burst env ID n st).1 = (generic_button_CB env st ID).1 := by
  obtain ⟨m, rfl⟩ : ∃ m, n = m + 1 := ⟨n - 1, by omega⟩
  have hcb : generic_button_CB env st ID =
      ({ st with system_buttons_infos :=
                   Function.update st.system_buttons_infos ID
                     ({ st.system_buttons_infos ID with
                          debounce_timer_expired := false,
                          state := env.level (st.system_buttons_infos ID).GPIO_num,
                          num_of_presses :=
                            (st.system_buttons_infos ID).num_of_presses + 1,
                          debounce_active := true }) }, true) := by
    simp [generic_button_CB, hact, hexp]
  have hact1 :
      (((generic_button_CB env st ID).1).system_buttons_infos ID).debounce_active
        = true := by
    rw [hcb]
    simp [Function.update_same]
  have hburst : edge_burst env ID (m + 1) st =
      ((generic_button_CB env st ID).1, 1) := by
    simp [edge_burst, edge_burst_noop env ID m _ hact1]
    simp [hcb]
  refine ⟨by rw [hburst], ?_, by rw [hburst]⟩
  rw [hburst, hcb]
  simp [Function.update_same]

/-- The demo system after button 0 was registered through init_button. -/
def demo_state_reg : ModuleState :=
  (init_button demo_env demo_state_ready 0).2

/-- Witness for C3: three edges in one window on the registered demo button
bump the counter from 0 to 1 and fire the callback once. -/
theorem edge_burst_counts_single_press_witness :
    (demo_state_reg.system_buttons_infos 0).was_initialized = true ∧
    (demo_state_reg.system_buttons_infos 0).debounce_active = false ∧
    (demo_state_reg.system_buttons_infos 0).debounce_timer_expired = true ∧
    (edge_burst demo_env 0 3 demo_state_reg).2 = 1 ∧
    (((edge_burst demo_env 0 3 demo_state_reg).1).system_buttons_infos 0).num_of_presses
      = (demo_state_reg.system_buttons_infos 0).num_of_presses + 1 ∧
    (edge_burst demo_env 0 3 demo_state_reg).1 =
      (generic_button_CB demo_env demo_state_reg 0).1 := by
  have h := edge_burst_counts_single_press demo_env demo_state_reg 0 3
    (by decide) (by decide) (by decide) (by decide)
  exact ⟨by decide, by decide, by decide, h.1, h.2.1, h.2.2⟩

/-- C4: at debounce-timer expiry for button fired (whose stored timer name
resolves back to fired), the settle checker either re-arms the timer when
the pin still reads pressed -- leaving the expired flag, counter, stored
level and descriptor untouched, so the button remains Debouncing -- or, when
the pin reads not-pressed, marks the debounce phase expired, touching
nothing but the phase flags. -/
theorem timer_expiry_rearm_or_settle
    (env : HwEnv) (nameOf : Nat → String) (st : ModuleState) (fired : Nat)
    (hname : resolve_timer_ID nameOf st.NUM_OF_BUTTONS
               ((st.system_buttons_infos fired).debounce_name) = fired) :
    (env.level (st.system_buttons_infos fired).GPIO_num =
        Button_state.BUTTON_IS_PRESSED →
      timer_expiry_event env nameOf st fired =
        { st with system_buttons_infos :=
                    Function.update st.system_buttons_infos fired
                      ({ st.system_buttons_infos fired with
                           debounce_active := true }) }) ∧
    (env.level (st.system_buttons_infos fired).GPIO_num ≠
        Button_state.BUTTON_IS_PRESSED →
      timer_expiry_event env nameOf st fired =
        { st with system_buttons_infos :=
                    Function.update st.system_buttons_infos fired
                      ({ st.system_buttons_infos fired with
                           debounce_active := false,
                           debounce_timer_expired := true }) }) := by
  constructor
  · intro hlvl
    simp [timer_expiry_event, set_timer_active, timer_CB, hname,
          Function.update_same, Function.update_idem, hlvl]
  · intro hlvl
    simp [timer_expiry_event, set_timer_active, timer_CB, hname,
          Function.update_same, Function.update_idem, hlvl]

/-- A debouncing configuration of the demo system: button 0 registered, its
debounce window armed and the expired flag clear. -/
def demo_state_debouncing : ModuleState where
  button_module_was_initialized := true
  NUM_OF_BUTTONS := 1
  system_buttons_infos := fun _ =>
    { demo_info0 with was_initialized := true, debounce_name := "BUTTON_0",
                      debounce_created := true, debounce_active := true,
                      debounce_timer_expired := false, num_of_presses := 1 }

/-- An environment identical to demo_env except every pin reads pressed. -/
def demo_env_pressed : HwEnv :=
  { demo_env with level := fun _ => Button_state.BUTTON_IS_PRESSED }

/-- Witness for C4: the expiry of the demo debounce timer re-arms when the
pin still reads pressed and settles when it reads released. -/
theorem timer_expiry_rearm_or_settle_witness :
    timer_expiry_event demo_env_pressed demo_names demo_state_debouncing 0 =
      { demo_state_debouncing with
          system_buttons_infos :=
            Function.update demo_state_debouncing.system_buttons_infos 0
              ({ demo_state_debouncing.system_buttons_infos 0 with
                   debounce_active := true }) } ∧
    timer_expiry_event demo_env demo_names demo_state_debouncing 0 =
      { demo_state_debouncing with
          system_buttons_infos :=
            Function.update demo_state_debouncing.system_buttons_infos 0
              ({ demo_state_debouncing.system_buttons_infos 0 with
                   debounce_active := false,
                   debounce_timer_expired := true }) } :=
  ⟨(timer_expiry_rearm_or_settle demo_env_pressed demo_names
      demo_state_debouncing 0 (by decide)).1 (by decide),
   (timer_expiry_rearm_or_settle demo_env demo_names
      demo_state_debouncing 0 (by decide)).2 (by decide)⟩

/-- The strcmp chain of timer_CB leaves the accumulator untouched when no
member name matches. -/
theorem resolve_foldl_no_match (nameOf : Nat → String) (nm : String) :
    ∀ (l : List Nat) (acc : Nat), (∀ i ∈ l, nm ≠ nameOf i) →
      l.foldl (fun ID i => if nm = nameOf i then i else ID) acc = acc := by
  intro l
  induction l with
  | nil => intro acc _; rfl
  | cons j rest ih =>
    intro acc h
    have hj : nm ≠ nameOf j := h j (by simp)
    have hrest : ∀ i ∈ rest, nm ≠ nameOf i := fun i hi => h i (by simp [hi])
    simp only [List.foldl_cons, if_neg hj]
    exact ih acc hrest

/-- C10: when timer_CB receives a timer whose name matches no member of the
closed enumeration, it does not fail or return early: the identifier stays
0 and it proceeds on button 0, either re-arming its debounce timer (pin
pressed) or marking its debounce phase expired (pin released). -/
theorem timer_CB_unknown_name_acts_on_button_zero
    (env : HwEnv) (nameOf : Nat → String) (st : ModuleState) (nm : String)
    (h : ∀ i < st.NUM_OF_BUTTONS, nm ≠ nameOf i) :
    timer_CB env nameOf st nm =
      (if env.level (st.system_buttons_infos 0).GPIO_num =
          Button_state.BUTTON_IS_PRESSED then
        { st with system_buttons_infos :=
                    Function.update st.system_buttons_infos 0
                      ({ st.system_buttons_infos 0 with
                           debounce_active := true }) }
      else
        { st with system_buttons_infos :=
                    Function.update st.system_buttons_infos 0
                      ({ st.system_buttons_infos 0 with
                           debounce_timer_expired := true }) }) := by
  have hres : resolve_timer_ID nameOf st.NUM_OF_BUTTONS nm = 0 := by
    unfold resolve_timer_ID
    exact resolve_foldl_no_match nameOf nm (List.range st.NUM_OF_BUTTONS) 0
      (fun i hi => h i (List.mem_range.mp hi))
  simp only [timer_CB, hres]

/-- Witness for C10: a foreign timer name on the demo system falls through
to button 0 and, with the pin released, marks its debounce phase expired. -/
theorem timer_CB_unknown_name_acts_on_button_zero_witness :
    timer_CB demo_env demo_names demo_state_debouncing "SOME_OTHER_TIMER" =
      (if demo_env.level
            ((demo_state_debouncing.system_buttons_infos 0).GPIO_num) =
          Button_state.BUTTON_IS_PRESSED then
        { demo_state_debouncing with
            system_buttons_infos :=
              Function.update demo_state_debouncing.system_buttons_infos 0
                ({ demo_state_debouncing.system_buttons_infos 0 with
                     debounce_active := true }) }
      else
        { demo_state_debouncing with
            system_buttons_infos :=
              Function.update demo_state_debouncing.system_buttons_infos 0
                ({ demo_state_debouncing.system_buttons_infos 0 with
                     debounce_timer_expired := true }) }) :=
  timer_CB_unknown_name_acts_on_button_zero demo_env demo_names
    demo_state_debouncing "SOME_OTHER_TIMER" (by decide)

/-- The demo system after de_init_button succeeded on the registered
button 0. -/
def demo_state_after_deinit : ModuleState :=
  (de_init_button demo_env demo_state_reg 0).2

/-- C1 (code bug): on the one-button system, de_init_button on the
registered button 0 succeeds, yet an immediately following init_button on
the same identifier is still rejected with
BSP_BUTTON_WAS_INITIALIZED_ERR, because de_init_button never clears the
was_initialized flag (Button.c lines 205-232 write no field). -/
theorem deinit_then_reinit_still_rejected :
    (de_init_button demo_env demo_state_reg 0).1 = Button_return.BSP_BUTTON_OK ∧
    (init_button demo_env demo_state_after_deinit 0).1 =
      Button_return.BSP_BUTTON_WAS_INITIALIZED_ERR := by
  decide

/-- C2 (code bug): a successful de_init_button resets none of the runtime
fields: the whole record of button 0 -- initialization flag included -- is
identical before and after the call, so nothing returns toward the
zero-valued creation state. -/
theorem deinit_resets_no_runtime_field :
    (de_init_button demo_env demo_state_reg 0).1 = Button_return.BSP_BUTTON_OK ∧
    demo_state_after_deinit.system_buttons_infos 0 =
      demo_state_reg.system_buttons_infos 0 ∧
    (demo_state_after_deinit.system_buttons_infos 0).was_initialized = true := by
  decide

/-- Folding sort_step from a failed accumulator stays failed. -/
theorem sort_step_foldl_none (env : HwEnv) (N : Nat)
    (infos : Nat → system_button_info) (l : List Nat) :
    l.foldl (sort_step env N infos) none = none := by
  induction l with
  | nil => rfl
  | cons j rest ih => simpa [sort_step] using ih

/-- If any entry of the processed range fails the per-entry checks, the
first loop fails regardless of the accumulator. -/
theorem sort_foldl_none_of_bad (env : HwEnv) (N : Nat)
    (infos : Nat → system_button_info) :
    ∀ (l : List Nat) (acc : Option (Nat → system_button_info)) (i : Nat),
      i ∈ l → entry_config_ok env N (infos i) = false →
      l.foldl (sort_step env N infos) acc = none := by
  intro l
  induction l with
  | nil => intro acc i hi _; simp at hi
  | cons j rest ih =>
    intro acc i hi hbad
    rcases List.mem_cons.mp hi with hij | hir
    · subst hij
      have hstep : sort_step env N infos acc i = none := by
        cases acc with
        | none => rfl
        | some arr => simp [sort_step, hbad]
      rw [List.foldl_cons, hstep, sort_step_foldl_none]
    · rw [List.foldl_cons]
      exact ih _ i hir hbad

/-- A pointwise property of entries that holds for the table and for the
all-zero entry is preserved by the first loop. -/
theorem sort_foldl_inv (env : HwEnv) (N : Nat)
    (infos : Nat → system_button_info) (P : system_button_info → Prop)
    (hinf : ∀ k, P (infos k)) :
    ∀ (l : List Nat) (a arr : Nat → system_button_info),
      (∀ j, P (a j)) →
      l.foldl (sort_step env N infos) (some a) = some arr →
      ∀ j, P (arr j) := by
  intro l
  induction l with
  | nil =>
    intro a arr ha h
    simp only [List.foldl_nil, Option.some.injEq] at h
    exact h ▸ ha
  | cons i rest ih =>
    intro a arr ha h
    rw [List.foldl_cons] at h
    by_cases hok : entry_config_ok env N (infos i) = true
    · rw [show sort_step env N infos (some a) i =
          some (Function.update a (infos i).ID (infos i)) from by
            simp [sort_step, hok]] at h
      refine ih _ arr ?_ h
      intro j
      by_cases hj : j = (infos i).ID
      · subst hj; simpa [Function.update_same] using hinf i
      · simpa [Function.update_noteq hj] using ha j
    · rw [show sort_step env N infos (some a) i = none from by
          simp [sort_step, hok]] at h
      rw [sort_step_foldl_none] at h
      exact absurd h (by simp)

/-- After the first loop, a slot whose index occurs as the identifier of a
processed entry holds an entry with precisely that identifier. -/
theorem sort_foldl_written (env : HwEnv) (N : Nat)
    (infos : Nat → system_button_info) :
    ∀ (l : List Nat) (a arr : Nat → system_button_info) (j : Nat),
      l.foldl (sort_step env N infos) (some a) = some arr →
      ((∃ k ∈ l, (infos k).ID = j) ∨ (a j).ID = j) →
      (arr j).ID = j := by
  intro l
  induction l with
  | nil =>
    intro a arr j h hj
    simp only [List.foldl_nil, Option.some.injEq] at h
    rcases hj with ⟨k, hk, _⟩ | hj
    · simp at hk
    · exact h ▸ hj
  | cons i rest ih =>
    intro a arr j h hj
    rw [List.foldl_cons] at h
    by_cases hok : entry_config_ok env N (infos i) = true
    · rw [show sort_step env N infos (some a) i =
          some (Function.update a (infos i).ID (infos i)) from by
            simp [sort_step, hok]] at h
      refine ih _ arr j h ?_
      rcases hj with ⟨k, hk, hkj⟩ | hj
      · rcases List.mem_cons.mp hk with hki | hkr
        · right
          subst hki
          rw [← hkj, Function.update_same]
        · exact Or.inl ⟨k, hkr, hkj⟩
      · right
        by_cases hje : j = (infos i).ID
        · rw [hje, Function.update_same, ← hje]
        · rw [Function.update_noteq hje]
          exact hj
    · rw [show sort_step env N infos (some a) i = none from by
          simp [sort_step, hok]] at h
      rw [sort_step_foldl_none] at h
      exact absurd h (by simp)

/-- If the second loop runs to completion, every processed index was one of
the declared case labels. -/
theorem copy_success_declared (env : HwEnv) (nameOf : Nat → String)
    (declared : List Nat) (arr : Nat → system_button_info) :
    ∀ (l : List Nat) (g : Nat → system_button_info),
      (copy_and_create env nameOf declared arr l g).1 = true →
      ∀ i ∈ l, declared.contains i = true := by
  intro l
  induction l with
  | nil => intro g _ i hi; simp at hi
  | cons j rest ih =>
    intro g h i hi
    simp only [copy_and_create] at h
    by_cases hd : declared.contains j = true
    · by_cases ht : env.timer_create_ok j = true
      · rw [if_pos hd, if_pos ht] at h
        rcases List.mem_cons.mp hi with hij | hir
        · exact hij ▸ hd
        · exact ih _ h i hir
      · rw [if_pos hd, if_neg ht] at h
        simp at h
    · rw [if_neg hd] at h
      simp at h

/-- The second loop never writes a slot whose index it does not process. -/
theorem copy_untouched (env : HwEnv) (nameOf : Nat → String)
    (declared : List Nat) (arr : Nat → system_button_info) :
    ∀ (l : List Nat) (g : Nat → system_button_info) (i : Nat), i ∉ l →
      (copy_and_create env nameOf declared arr l g).2 i = g i := by
  intro l
  induction l with
  | nil => intro g i _; rfl
  | cons j rest ih =>
    intro g i hi
    have hij : i ≠ j := fun h => hi (h ▸ List.mem_cons_self j rest)
    have hir : i ∉ rest := fun h => hi (List.mem_cons_of_mem j h)
    simp only [copy_and_create]
    by_cases hd : declared.contains j = true
    · by_cases ht : env.timer_create_ok j = true
      · rw [if_pos hd, if_pos ht, ih _ i hir]
        rw [Function.update_noteq hij, Function.update_noteq hij]
      · rw [if_pos hd, if_neg ht]
        exact Function.update_noteq hij _ _
    · rw [if_neg hd]
      exact Function.update_noteq hij _ _

/-- When the second loop runs to completion over distinct indices, each
processed slot holds its sorted entry with the freshly created timer. -/
theorem copy_success_get (env : HwEnv) (nameOf : Nat → String)
    (declared : List Nat) (arr : Nat → system_button_info) :
    ∀ (l : List Nat) (g : Nat → system_button_info) (i : Nat),
      l.Nodup → i ∈ l →
      (copy_and_create env nameOf declared arr l g).1 = true →
      (copy_and_create env nameOf declared arr l g).2 i =
        timer_entry nameOf (arr i) i := by
  intro l
  induction l with
  | nil => intro g i _ hi _; simp at hi
  | cons j rest ih =>
    intro g i hnd hi hsucc
    simp only [copy_and_create] at hsucc ⊢
    by_cases hd : declared.contains j = true
    · by_cases ht : env.timer_create_ok j = true
      · rw [if_pos hd, if_pos ht] at hsucc ⊢
        rcases List.mem_cons.mp hi with hij | hir
        · subst hij
          have hjr : i ∉ rest := (List.nodup_cons.mp hnd).1
          rw [copy_untouched env nameOf declared arr rest _ i hjr,
              Function.update_same]
        · exact ih _ i (List.nodup_cons.mp hnd).2 hir hsucc
      · rw [if_pos hd, if_neg ht] at hsucc
        simp at hsucc
    · rw [if_neg hd] at hsucc
      simp at hsucc

/-- A pointwise property holding for the current globals, the sorted array
and the timer-equipped entries is preserved by the second loop, on success
and on early failure alike. -/
theorem copy_inv (env : HwEnv) (nameOf : Nat → String)
    (declared : List Nat) (arr : Nat → system_button_info)
    (P : system_button_info → Prop)
    (harr : ∀ j, P (arr j))
    (htimer : ∀ j, P (timer_entry nameOf (arr j) j)) :
    ∀ (l : List Nat) (g : Nat → system_button_info), (∀ j, P (g j)) →
      ∀ j, P ((copy_and_create env nameOf declared arr l g).2 j) := by
  intro l
  induction l with
  | nil => intro g hg j; exact hg j
  | cons i rest ih =>
    intro g hg j
    have hg1 : ∀ k, P (Function.update g i (arr i) k) := by
      intro k
      by_cases hk : k = i
      · subst hk; simpa [Function.update_same] using harr k
      · simpa [Function.update_noteq hk] using hg k
    have hg2 : ∀ k, P (Function.update (Function.update g i (arr i)) i
        (timer_entry nameOf (arr i) i) k) := by
      intro k
      by_cases hk : k = i
      · subst hk; simpa [Function.update_same] using htimer k
      · simpa [Function.update_noteq hk] using hg1 k
    simp only [copy_and_create]
    by_cases hd : declared.contains i = true
    · by_cases ht : env.timer_create_ok i = true
      · rw [if_pos hd, if_pos ht]
        exact ih _ hg2 j
      · rw [if_pos hd, if_neg ht]
        exact hg1 j
    · rw [if_neg hd]
      exact hg1 j

/-- check_configurations_sort_and_init when the first loop fails: the
function reports failure and the globals are untouched. -/
theorem check_config_none (env : HwEnv) (nameOf : Nat → String)
    (st : ModuleState)
    (hs : sort_pass env st.NUM_OF_BUTTONS st.system_buttons_infos = none) :
    check_configurations_sort_and_init env nameOf st = (false, st) := by
  unfold check_configurations_sort_and_init
  rw [hs]

/-- check_configurations_sort_and_init when the first loop yields the
sorted array arr: the result is the second loop run over all indices. -/
theorem check_config_some (env : HwEnv) (nameOf : Nat → String)
    (st : ModuleState) (arr : Nat → system_button_info)
    (hs : sort_pass env st.NUM_OF_BUTTONS st.system_buttons_infos = some arr) :
    check_configurations_sort_and_init env nameOf st =
      ((copy_and_create env nameOf
          (declared_IDs st.NUM_OF_BUTTONS st.system_buttons_infos) arr
          (List.range st.NUM_OF_BUTTONS) st.system_buttons_infos).1,
       { st with system_buttons_infos :=
                   (copy_and_create env nameOf
                     (declared_IDs st.NUM_OF_BUTTONS st.system_buttons_infos)
                     arr (List.range st.NUM_OF_BUTTONS)
                     st.system_buttons_infos).2 }) := by
  unfold check_configurations_sort_and_init
  rw [hs]

/-- The validation pass never touches the module flag. -/
theorem check_config_preserves_flag (env : HwEnv) (nameOf : Nat → String)
    (st : ModuleState) :
    ((check_configurations_sort_and_init env nameOf st).2).button_module_was_initialized
      = st.button_module_was_initialized := by
  cases hs : sort_pass env st.NUM_OF_BUTTONS st.system_buttons_infos with
  | none => rw [check_config_none env nameOf st hs]
  | some arr => rw [check_config_some env nameOf st arr hs]

/-- The validation pass never changes the number of buttons. -/
theorem check_config_preserves_N (env : HwEnv) (nameOf : Nat → String)
    (st : ModuleState) :
    ((check_configurations_sort_and_init env nameOf st).2).NUM_OF_BUTTONS
      = st.NUM_OF_BUTTONS := by
  cases hs : sort_pass env st.NUM_OF_BUTTONS st.system_buttons_infos with
  | none => rw [check_config_none env nameOf st hs]
  | some arr => rw [check_config_some env nameOf st arr hs]

/-- init_BSP_button_module on an uninitialized module whose validation
failed: the invalid-configuration error, with the globals as the failed
validation left them. -/
theorem init_module_check_failed (env : HwEnv) (nameOf : Nat → String)
    (st : ModuleState)
    (hflag : st.button_module_was_initialized = false)
    (hf : (check_configurations_sort_and_init env nameOf st).1 = false) :
    init_BSP_button_module env nameOf st =
      (Button_return.BSP_BUTTON_INVALID_BUTTONS_CONFIG_ERR,
       (check_configurations_sort_and_init env nameOf st).2) := by
  simp [init_BSP_button_module, hflag, hf]

/-- A successful first init_BSP_button_module means the validation passed
and the final state is the validated one with the module flag set. -/
theorem init_module_ok_cases (env : HwEnv) (nameOf : Nat → String)
    (st : ModuleState)
    (hflag : st.button_module_was_initialized = false)
    (hok : (init_BSP_button_module env nameOf st).1 =
             Button_return.BSP_BUTTON_OK) :
    (check_configurations_sort_and_init env nameOf st).1 = true ∧
    (init_BSP_button_module env nameOf st).2 =
      { (check_configurations_sort_and_init env nameOf st).2 with
          button_module_was_initialized := true } := by
  by_cases h1 : (check_configurations_sort_and_init env nameOf st).1 = false
  · rw [init_module_check_failed env nameOf st hflag h1] at hok
    simp at hok
  · have h1' : (check_configurations_sort_and_init env nameOf st).1 = true := by
      simpa using h1
    by_cases h2 : env.isr_service_ok = false
    · have hbad : init_BSP_button_module env nameOf st =
          (Button_return.BSP_BUTTON_INIT_ERR,
           (check_configurations_sort_and_init env nameOf st).2) := by
        simp [init_BSP_button_module, hflag, h1', h2]
      rw [hbad] at hok
      simp at hok
    · have hgood : init_BSP_button_module env nameOf st =
          (Button_return.BSP_BUTTON_OK,
           { (check_configurations_sort_and_init env nameOf st).2 with
               button_module_was_initialized := true }) := by
        simp [init_BSP_button_module, hflag, h1', h2]
      exact ⟨h1', by rw [hgood]⟩

/-- C5: on an uninitialized module with a pristine table, (a) any entry
failing the per-entry validation (identifier outside the closed
enumeration, illegal pin, unrecognized pull mode) makes
init_BSP_button_module return the invalid-configuration error with the
globals completely untouched; (b) whenever the validation pass fails for
any reason, init_BSP_button_module returns the invalid-configuration error,
the module flag stays clear and no button is left registered
(all-or-nothing); (c) when the validation pass succeeds, the table has been
re-indexed so that position equals identifier. -/
theorem module_validation_all_or_nothing_and_reindex
    (env : HwEnv) (nameOf : Nat → String) (st : ModuleState)
    (hflag : st.button_module_was_initialized = false)
    (hpristine : ∀ k, (st.system_buttons_infos k).was_initialized = false) :
    ((∃ i, i < st.NUM_OF_BUTTONS ∧
        entry_config_ok env st.NUM_OF_BUTTONS (st.system_buttons_infos i)
          = false) →
      init_BSP_button_module env nameOf st =
        (Button_return.BSP_BUTTON_INVALID_BUTTONS_CONFIG_ERR, st)) ∧
    ((check_configurations_sort_and_init env nameOf st).1 = false →
      (init_BSP_button_module env nameOf st).1 =
        Button_return.BSP_BUTTON_INVALID_BUTTONS_CONFIG_ERR ∧
      ((init_BSP_button_module env nameOf st).2).button_module_was_initialized
        = false ∧
      ∀ k, (((init_BSP_button_module env nameOf st).2).system_buttons_infos k).was_initialized
        = false) ∧
    ((check_configurations_sort_and_init env nameOf st).1 = true →
      ∀ i, i < st.NUM_OF_BUTTONS →
        (((check_configurations_sort_and_init env nameOf st).2).system_buttons_infos i).ID
          = i) := by
  have hwasinit :
      ∀ k, (((check_configurations_sort_and_init env nameOf st).2).system_buttons_infos k).was_initialized
        = false := by
    intro k
    cases hs : sort_pass env st.NUM_OF_BUTTONS st.system_buttons_infos with
    | none =>
      rw [check_config_none env nameOf st hs]
      exact hpristine k
    | some arr =>
      rw [check_config_some env nameOf st arr hs]
      have harr : ∀ j, (arr j).was_initialized = false := by
        refine sort_foldl_inv env st.NUM_OF_BUTTONS st.system_buttons_infos
          (fun b => b.was_initialized = false) hpristine
          (List.range st.NUM_OF_BUTTONS) (fun _ => zeroed_button_info) arr
          (fun _ => rfl) hs
      refine copy_inv env nameOf _ arr (fun b => b.was_initialized = false)
        harr (fun j => ?_) _ st.system_buttons_infos hpristine k
      simpa [timer_entry] using harr j
  refine ⟨?_, ?_, ?_⟩
  · rintro ⟨i, hiN, hbad⟩
    have hnone : sort_pass env st.NUM_OF_BUTTONS st.system_buttons_infos
        = none :=
      sort_foldl_none_of_bad env st.NUM_OF_BUTTONS st.system_buttons_infos
        (List.range st.NUM_OF_BUTTONS) _ i (List.mem_range.mpr hiN) hbad
    have hcheck := check_config_none env nameOf st hnone
    have hf : (check_configurations_sort_and_init env nameOf st).1 = false := by
      rw [hcheck]
    rw [init_module_check_failed env nameOf st hflag hf, hcheck]
  · intro hf
    rw [init_module_check_failed env nameOf st hflag hf]
    refine ⟨rfl, ?_, hwasinit⟩
    rw [check_config_preserves_flag env nameOf st]
    exact hflag
  · intro hT i hiN
    cases hs : sort_pass env st.NUM_OF_BUTTONS st.system_buttons_infos with
    | none =>
      rw [check_config_none env nameOf st hs] at hT
      simp at hT
    | some arr =>
      rw [check_config_some env nameOf st arr hs] at hT ⊢
      have hmem : i ∈ List.range st.NUM_OF_BUTTONS := List.mem_range.mpr hiN
      have hdecl := copy_success_declared env nameOf
        (declared_IDs st.NUM_OF_BUTTONS st.system_buttons_infos) arr
        (List.range st.NUM_OF_BUTTONS) st.system_buttons_infos hT i hmem
      have hex : ∃ k ∈ List.range st.NUM_OF_BUTTONS,
          (st.system_buttons_infos k).ID = i := by
        have hmem2 : i ∈ declared_IDs st.NUM_OF_BUTTONS st.system_buttons_infos := by
          simpa using hdecl
        simpa [declared_IDs] using hmem2
      have harrID : (arr i).ID = i :=
        sort_foldl_written env st.NUM_OF_BUTTONS st.system_buttons_infos
          (List.range st.NUM_OF_BUTTONS) (fun _ => zeroed_button_info) arr i
          hs (Or.inl hex)
      have hget := copy_success_get env nameOf
        (declared_IDs st.NUM_OF_BUTTONS st.system_buttons_infos) arr
        (List.range st.NUM_OF_BUTTONS) st.system_buttons_infos i
        (List.nodup_range _) hmem hT
      simp only [hget]
      simpa [timer_entry] using harrID

/-- A one-button system whose single entry declares an unrecognized pull
mode, so the table must fail validation. -/
def demo_state_bad_pull : ModuleState where
  button_module_was_initialized := false
  NUM_OF_BUTTONS := 1
  system_buttons_infos := fun _ => { demo_info0 with pull_mode := 9 }

/-- Witness for C5: the bad-pull-mode table is rejected atomically, and on
the good table the validated entry 0 carries identifier 0. -/
theorem module_validation_all_or_nothing_and_reindex_witness :
    init_BSP_button_module demo_env demo_names demo_state_bad_pull =
      (Button_return.BSP_BUTTON_INVALID_BUTTONS_CONFIG_ERR,
       demo_state_bad_pull) ∧
    (((check_configurations_sort_and_init demo_env demo_names demo_state0).2).system_buttons_infos 0).ID
      = 0 :=
  ⟨(module_validation_all_or_nothing_and_reindex demo_env demo_names
      demo_state_bad_pull rfl (fun _ => rfl)).1 ⟨0, by decide, by decide⟩,
   (module_validation_all_or_nothing_and_reindex demo_env demo_names
      demo_state0 rfl (fun _ => rfl)).2.2 (by decide) 0 (by decide)⟩

/-- C8: after a successful init_BSP_button_module on a zero-valued table,
get_num_of_presses on a valid but never-registered identifier succeeds and
returns 0, while read_button_state on the same identifier fails with
BSP_BUTTON_WAS_NOT_INITIALIZED_ERR and writes nothing through its out
parameter. -/
theorem fresh_button_count_zero_state_unreadable
    (env : HwEnv) (nameOf : Nat → String) (st : ModuleState) (ID : Nat)
    (hzero : ∀ k, (st.system_buttons_infos k).num_of_presses = 0 ∧
                  (st.system_buttons_infos k).was_initialized = false)
    (hID : ID < st.NUM_OF_BUTTONS)
    (hok : (init_BSP_button_module env nameOf st).1 =
             Button_return.BSP_BUTTON_OK) :
    get_num_of_presses ((init_BSP_button_module env nameOf st).2) ID =
      (Button_return.BSP_BUTTON_OK, some 0) ∧
    read_button_state ((init_BSP_button_module env nameOf st).2) ID =
      (Button_return.BSP_BUTTON_WAS_NOT_INITIALIZED_ERR, none) := by
  by_cases hflag : st.button_module_was_initialized = false
  · obtain ⟨hcheckT, hst2⟩ := init_module_ok_cases env nameOf st hflag hok
    have hP : ∀ k,
        (((check_configurations_sort_and_init env nameOf st).2).system_buttons_infos k).num_of_presses = 0 ∧
        (((check_configurations_sort_and_init env nameOf st).2).system_buttons_infos k).was_initialized = false := by
      intro k
      cases hs : sort_pass env st.NUM_OF_BUTTONS st.system_buttons_infos with
      | none =>
        rw [check_config_none env nameOf st hs]
        exact hzero k
      | some arr =>
        rw [check_config_some env nameOf st arr hs]
        have harr : ∀ j, (arr j).num_of_presses = 0 ∧
            (arr j).was_initialized = false := by
          refine sort_foldl_inv env st.NUM_OF_BUTTONS st.system_buttons_infos
            (fun b => b.num_of_presses = 0 ∧ b.was_initialized = false) hzero
            (List.range st.NUM_OF_BUTTONS) (fun _ => zeroed_button_info) arr
            (fun _ => ⟨rfl, rfl⟩) hs
        refine copy_inv env nameOf _ arr
          (fun b => b.num_of_presses = 0 ∧ b.was_initialized = false)
          harr (fun j => ?_) _ st.system_buttons_infos hzero k
        simpa [timer_entry] using harr j
    have hN := check_config_preserves_N env nameOf st
    rw [hst2]
    constructor
    · simp [get_num_of_presses, check_button_ID, hN, hID, (hP ID).1]
    · simp [read_button_state, check_button_ID, hN, hID, (hP ID).2]
  · have hflagT : st.button_module_was_initialized = true := by
      simpa using hflag
    have hid : init_BSP_button_module env nameOf st =
        (Button_return.BSP_BUTTON_OK, st) := by
      simp [init_BSP_button_module, hflagT]
    rw [hid]
    constructor
    · simp [get_num_of_presses, check_button_ID, hflagT, hID, (hzero ID).1]
    · simp [read_button_state, check_button_ID, hflagT, hID, (hzero ID).2]

/-- Witness for C8 on the demo system brought up from its creation state. -/
theorem fresh_button_count_zero_state_unreadable_witness :
    get_num_of_presses
        ((init_BSP_button_module demo_env demo_names demo_state0).2) 0 =
      (Button_return.BSP_BUTTON_OK, some 0) ∧
    read_button_state
        ((init_BSP_button_module demo_env demo_names demo_state0).2) 0 =
      (Button_return.BSP_BUTTON_WAS_NOT_INITIALIZED_ERR, none) :=
  fresh_button_count_zero_state_unreadable demo_env demo_names demo_state0 0
    (fun _ => ⟨rfl, rfl⟩) (by decide) (by decide)
